import Mathlib

/-!
Verification of the startup/shutdown wiring of `main.go` (DiceDB entry point).

`main` is a sequential program whose behaviour is determined by
(a) the parsed flag values (modelled by `Config`) and
(b) the success or failure of the external calls it makes
    (modelled by `Env`: WAL constructors, `wl.Init`, `FindPortAndBind`,
    `startProfiling`, and `runtime.NumCPU()`).

We embed `main` shallowly as `mainTrace : Config → Env → List Event`, the
ordered list of observable start-up/shutdown actions `main` performs on that
configuration and environment, following the source's control flow
statement by statement (line numbers refer to `main.go`).

Go semantics note used throughout: `main.go` contains no call to `os.Exit`
or `log.Fatal`; every termination path of `main` is a plain `return`, and a
Go process whose `main` returns exits with status 0.  Hence every trace ends
in `Event.exited 0`.  (Panics are not modelled; no claim depends on a
panicking path.)
-/

/-- Flag values read by `main.go` (registered in `init`, lines 42-74) that
influence its control flow.  Flags that never branch `main`'s logic
(host, port, http-port, websocket-port, log-level, log-dir, requirepass,
keys-limit, config-file paths) are omitted: they are passed through to
collaborators unchanged. -/
structure Config where
  enableHTTP : Bool
  enableWebsocket : Bool
  enableMultiThreading : Bool
  numShards : Int
  enableWatch : Bool
  enableProfiling : Bool
  enableWAL : Bool
  restoreFromWAL : Bool
  walEngine : String
  deriving DecidableEq, Repr

/-- Outcomes of the external (fallible or machine-dependent) calls `main`
makes: `runtime.NumCPU()` (line 242), `wal.NewSQLiteWAL` (line 193),
`wal.NewAOFWAL` (line 201), `wl.Init` (line 214),
`asyncServer.FindPortAndBind` (line 285), `startProfiling` (line 271). -/
structure Env where
  numCPU : Nat
  sqliteOk : Bool
  aofOk : Bool
  walInitOk : Bool
  bindOk : Bool
  profilingOk : Bool
  deriving DecidableEq, Repr

/-- The three WAL implementations that can end up in the variable `wl`:
`wal.NewNullWAL` (line 189), `wal.NewSQLiteWAL` (line 193),
`wal.NewAOFWAL` (line 201). -/
inductive WALBackend
  | nullWAL
  | sqliteWAL
  | aofWAL
  deriving DecidableEq, Repr

/-- The four server front-ends `main` can start: the RESP worker server
(line 280), the async server (line 284), the HTTP server (line 294) and the
WebSocket server (line 301). -/
inductive ServerKind
  | resp
  | async
  | http
  | websocket
  deriving DecidableEq, Repr

/-- Observable actions of `main`, in program order. -/
inductive Event
  /-- a WAL backend other than the initial null one was constructed and
  assigned to `wl` (lines 199, 207) -/
  | walCreated (b : WALBackend)
  /-- the statement `sigs <- syscall.SIGKILL`: the self-signal abort idiom
  (lines 196, 204, 210, 274, 287) -/
  | selfSignal
  /-- the spawn `go wal.InitBG(wl)` (line 217), reached only when `wl.Init` succeeded -/
  | walInitBG
  /-- the call `wal.ReplayWAL(wl)` returned (line 224); `main` is sequential, so the
  replay has run to completion when this event is in the trace -/
  | replayWAL
  /-- the call `shard.NewShardManager(uint8(numShards), ...)` (line 257), recording
  the `uint8` argument actually handed over -/
  | shardManagerCreated (n : Nat)
  /-- the spawn `go runServer(ctx, ...)` for the given front-end
  (lines 282, 291, 296, 303) -/
  | serverStarted (s : ServerKind)
  /-- all `serverWg` goroutines have terminated: `serverWg.Wait()` returned
  (line 314), after which `serverErrCh` is closed -/
  | serversTerminated
  /-- the `for err := range serverErrCh` drain loop (lines 318-324) ended,
  which happens exactly when the closed channel is exhausted -/
  | errChDrained
  /-- the call `wal.ShutdownBG()` (line 329) -/
  | walShutdownBG
  /-- the process exited with the given status -/
  | exited (code : Nat)
  deriving DecidableEq, Repr

/-- Lines 240-248: the shard count `main` computes.  With multithreading,
`runtime.NumCPU()` overridden by `num-shards` when positive; without
multithreading the count is hard-wired to 1. -/
def computeNumShards (cfg : Config) (env : Env) : Int :=
  if cfg.enableMultiThreading then
    if cfg.numShards > 0 then cfg.numShards else (env.numCPU : Int)
  else 1

/-- Go's `uint8(n)` conversion of an `int`: truncation to the low 8 bits,
i.e. reduction modulo 256 (Go spec: conversion between integer types
discards high-order bits). -/
def goUint8 (n : Int) : Nat := (n % 256).toNat

/-- The first argument of `shard.NewShardManager(uint8(numShards), ...)`
at line 257. -/
def shardManagerArg (cfg : Config) (env : Env) : Nat :=
  goUint8 (computeNumShards cfg env)

/-- Lines 192-212: which WAL backend the `wal-engine` switch constructs
when `enable-wal` is set.  `none` means the abort path was taken: either
the named constructor failed, or the engine string is neither `"sqlite"`
nor `"aof"` (the `else` branch at line 208 — note the default engine string
`"null"` also lands there). -/
def createWAL (cfg : Config) (env : Env) : Option WALBackend :=
  if cfg.walEngine = "sqlite" then
    if env.sqliteOk then some WALBackend.sqliteWAL else none
  else if cfg.walEngine = "aof" then
    if env.aofOk then some WALBackend.aofWAL else none
  else none


/-- The WAL backend in the variable `wl` after the WAL phase (lines
189-227): the null WAL from line 189 unless `enable-wal` replaces it;
`none` means `main` took one of the early `return`s (lines 197, 205,
211). -/
def walBackendOf (cfg : Config) (env : Env) : Option WALBackend :=
  if cfg.enableWAL then createWAL cfg env else some WALBackend.nullWAL

/-- Whether `main` returned early from the WAL phase (one of the `return`
statements at lines 197, 205, 211). -/
def abortsEarly (cfg : Config) (env : Env) : Bool :=
  (walBackendOf cfg env).isNone

/-- Events of the WAL phase (lines 189-227), in order.  On a failed or
unsupported engine selection only the self-signal is emitted.  Otherwise:
the backend assignment, then — only when `wl.Init` succeeded — the
`go wal.InitBG(wl)` spawn (line 214-218; an `Init` error merely logs and
start-up continues), then `ReplayWAL` when `restore-wal` is set
(lines 222-226). -/
def walEvents (cfg : Config) (env : Env) : List Event :=
  if cfg.enableWAL then
    match createWAL cfg env with
    | none => [Event.selfSignal]
    | some b =>
        Event.walCreated b ::
          ((if env.walInitOk then [Event.walInitBG] else []) ++
           (if cfg.restoreFromWAL then [Event.replayWAL] else []))
  else []

/-- Lines 269-304: server wiring.  Multithreading: optional profiling
(failure self-signals but does not return, lines 271-275), then the RESP
server.  Otherwise: the async server — a port-bind failure self-signals
but `main` still goes on to start it (lines 285-291) — and, only in this
branch, the HTTP server when `enable-http` is set (lines 293-297).  The
WebSocket server is started in either branch when `enable-websocket` is
set (lines 300-304). -/
def serverSetup (cfg : Config) (env : Env) : List Event :=
  (if cfg.enableMultiThreading then
    (if cfg.enableProfiling ∧ ¬env.profilingOk then [Event.selfSignal] else []) ++
      [Event.serverStarted ServerKind.resp]
  else
    (if env.bindOk then [] else [Event.selfSignal]) ++
      [Event.serverStarted ServerKind.async] ++
      (if cfg.enableHTTP then [Event.serverStarted ServerKind.http] else [])) ++
  (if cfg.enableWebsocket then [Event.serverStarted ServerKind.websocket] else [])

/-- The trace of `main` (lines 169-335): WAL phase; on early return `main`
falls off and the process exits 0.  Otherwise: `NewShardManager` with the
`uint8` shard count (line 257), server wiring (lines 269-304), then the
shutdown sequence — `serverWg.Wait` and close of `serverErrCh` (lines
313-316), the drain loop over `serverErrCh` (lines 318-324),
`wal.ShutdownBG()` when `enable-wal` (lines 328-330), and the final
`return`, i.e. exit status 0. -/
def mainTrace (cfg : Config) (env : Env) : List Event :=
  if abortsEarly cfg env then
    walEvents cfg env ++ [Event.exited 0]
  else
    walEvents cfg env ++
    [Event.shardManagerCreated (shardManagerArg cfg env)] ++
    serverSetup cfg env ++
    [Event.serversTerminated, Event.errChDrained] ++
    (if cfg.enableWAL then [Event.walShutdownBG] else []) ++
    [Event.exited 0]

/-- The exit status of a completed run: the code of the final `exited`
event. -/
def exitCodeOf (t : List Event) : Option Nat :=
  match t.getLast? with
  | some (Event.exited c) => some c
  | _ => none

/-- Property `allAfter t a b`: some occurrence of `a` in `t` precedes every
occurrence of `b` — i.e. `a` has happened by the time any `b` happens. -/
def allAfter (t : List Event) (a b : Event) : Prop :=
  ∃ l₁ l₂, t = l₁ ++ l₂ ∧ a ∈ l₁ ∧ b ∉ l₁

/-- Copy of `cfg` with `restore-wal` set to `b`, all other flags unchanged. -/
def setRestore (cfg : Config) (b : Bool) : Config :=
  ⟨cfg.enableHTTP, cfg.enableWebsocket, cfg.enableMultiThreading,
   cfg.numShards, cfg.enableWatch, cfg.enableProfiling, cfg.enableWAL,
   b, cfg.walEngine⟩

/-! ### Signal / context wiring (lines 175-179, 261-311)

`main` creates exactly one cancellable context (line 175); we give it the
identifier `processCtx`.  Every long-lived task is started with that same
variable `ctx`: the shard manager (line 264) and each `runServer` call
(lines 282, 291, 296, 303).  `signal.Notify(sigs, syscall.SIGTERM,
syscall.SIGINT)` (line 179) subscribes the channel to exactly those two
signals, and the watcher goroutine (lines 306-311) performs `<-sigs` then
`cancel()` — cancelling `processCtx` — whatever value it received. -/

/-- Signals appearing in `main.go`. -/
inductive Sig
  | sigterm
  | sigint
  | sigkill
  deriving DecidableEq, Repr

/-- Identifier of the single context created by `context.WithCancel`
at line 175. -/
def processCtx : Nat := 0

/-- The signals `signal.Notify` subscribes `sigs` to (line 179). -/
def notifiedSignals : List Sig := [Sig.sigterm, Sig.sigint]

/-- The context the watcher goroutine (lines 306-311) cancels upon
receiving a value from `sigs`: it calls the `cancel` of line 175
unconditionally. -/
def cancelCtxOnSignal (_ : Sig) : Option Nat := some processCtx

/-- The long-lived tasks `main` spawns. -/
inductive TaskId
  | shardManagerTask
  | respServerTask
  | asyncServerTask
  | httpServerTask
  | websocketServerTask
  deriving DecidableEq, Repr

/-- The long-lived tasks spawned on a run that passes the WAL phase,
paired with the identifier of the context variable each is handed in the
source: `shardManager.Run(ctx)` (line 264) and `runServer(ctx, ...)`
(lines 282, 291, 296, 303) all receive the line-175 `ctx`. -/
def spawnedTasks (cfg : Config) (env : Env) : List (TaskId × Nat) :=
  if abortsEarly cfg env then []
  else
    (TaskId.shardManagerTask, processCtx) ::
    ((if cfg.enableMultiThreading then
        [(TaskId.respServerTask, processCtx)]
      else
        (TaskId.asyncServerTask, processCtx) ::
        (if cfg.enableHTTP then [(TaskId.httpServerTask, processCtx)] else [])) ++
     (if cfg.enableWebsocket then [(TaskId.websocketServerTask, processCtx)] else []))

/-! ### Helper lemmas -/

/-- Any event emitted by the WAL phase is one of: `walCreated`,
`selfSignal`, `walInitBG`, `replayWAL`. -/
lemma mem_walEvents_shape (cfg : Config) (env : Env) (e : Event)
    (h : e ∈ walEvents cfg env) :
    (∃ b, e = Event.walCreated b) ∨ e = Event.selfSignal ∨
      e = Event.walInitBG ∨ e = Event.replayWAL := by
  unfold walEvents at h
  split at h
  · split at h
    · simp at h
      tauto
    · simp only [List.mem_cons, List.mem_append] at h
      split_ifs at h <;> aesop
  · simp at h

/-- Any event emitted by the server wiring is a `serverStarted` or a
`selfSignal`. -/
lemma mem_serverSetup_shape (cfg : Config) (env : Env) (e : Event)
    (h : e ∈ serverSetup cfg env) :
    (∃ s, e = Event.serverStarted s) ∨ e = Event.selfSignal := by
  unfold serverSetup at h
  simp only [List.mem_append, List.mem_cons] at h
  split_ifs at h <;> aesop

/-- Event `replayWAL` is emitted by the WAL phase exactly when `enable-wal` and
`restore-wal` are both set and the backend construction succeeded. -/
lemma replay_mem_walEvents_iff (cfg : Config) (env : Env) :
    Event.replayWAL ∈ walEvents cfg env ↔
      cfg.enableWAL = true ∧ cfg.restoreFromWAL = true ∧
        (createWAL cfg env).isSome = true := by
  unfold walEvents
  cases hw : cfg.enableWAL
  · simp [hw]
  · cases hc : createWAL cfg env <;>
      simp only [hw, hc, if_true, List.mem_cons, List.mem_append]
    · simp
    · split_ifs <;> simp_all

/-! ### Concrete configurations and environments -/

/-- Environment: 8-core machine, every external call succeeds. -/
def envAllOk : Env := ⟨8, true, true, true, true, true⟩

/-- Environment in which `wal.NewSQLiteWAL` fails, everything else
succeeds. -/
def envSqliteFail : Env := ⟨8, false, true, true, true, true⟩

/-- Environment in which `wl.Init` fails, everything else succeeds. -/
def envInitFail : Env := ⟨8, true, true, false, true, true⟩

/-- All flags at their registered defaults (lines 42-74): every switch
off, `num-shards -1`, `wal-engine "null"`. -/
def cfgDefault : Config := ⟨false, false, false, -1, false, false, false, false, "null"⟩

/-- Defaults plus `--enable-wal --wal-engine sqlite`. -/
def cfgWalSqlite : Config := ⟨false, false, false, -1, false, false, true, false, "sqlite"⟩

/-- Defaults plus `--enable-wal` (so `wal-engine` keeps its default
`"null"`). -/
def cfgWalNull : Config := ⟨false, false, false, -1, false, false, true, false, "null"⟩

/-- Non-multithreaded run with `--num-shards 4`. -/
def cfgShards4 : Config := ⟨false, false, false, 4, false, false, false, false, "null"⟩

/-- Run with `--enable-multithreading --num-shards 256`. -/
def cfgShards256 : Config := ⟨false, false, true, 256, false, false, false, false, "null"⟩

example : mainTrace cfgDefault envAllOk =
    [Event.shardManagerCreated 1, Event.serverStarted ServerKind.async,
     Event.serversTerminated, Event.errChDrained, Event.exited 0] := by decide

example : mainTrace cfgWalSqlite envAllOk =
    [Event.walCreated WALBackend.sqliteWAL, Event.walInitBG,
     Event.shardManagerCreated 1, Event.serverStarted ServerKind.async,
     Event.serversTerminated, Event.errChDrained, Event.walShutdownBG,
     Event.exited 0] := by decide

/-! ### Claims -/

/-- C1: the spec's exit-code contract fails on the code.  With
`--enable-wal --wal-engine sqlite` and `wal.NewSQLiteWAL` failing, `main`
sends `SIGKILL` into its own (not yet watched) signal channel and then
plainly `return`s (lines 196-197), so the Go process exits with status 0,
not non-zero.  And when `wl.Init` fails (line 214) start-up is not even
aborted: the run proceeds to serve and also exits 0. -/
theorem C1_wal_failure_exit_code_zero :
    mainTrace cfgWalSqlite envSqliteFail = [Event.selfSignal, Event.exited 0]
  ∧ exitCodeOf (mainTrace cfgWalSqlite envSqliteFail) = some 0
  ∧ Event.selfSignal ∉ mainTrace cfgWalSqlite envInitFail
  ∧ exitCodeOf (mainTrace cfgWalSqlite envInitFail) = some 0 := by decide

/-- C2 counterexample: with `enable-wal` set and the spec-sanctioned
engine value `null` (also the flag's default), start-up does not proceed
with a null WAL backend: `main` takes the unsupported-engine abort branch
(lines 208-211). -/
theorem C2_null_engine_is_rejected :
    mainTrace cfgWalNull envAllOk = [Event.selfSignal, Event.exited 0]
  ∧ walBackendOf cfgWalNull envAllOk = none := by decide

/-- C2 amended: when `enable-wal` is true only `sqlite` (embedded-sql) and
`aof` (segmented-log) select a backend and let start-up proceed; every
other engine string — including the default `null` — aborts start-up with
a self-signal.  The null backend is used exactly when `enable-wal` is
false. -/
theorem C2_wal_engine_selection (cfg : Config) (env : Env) :
    (cfg.enableWAL = true → cfg.walEngine = "sqlite" → env.sqliteOk = true →
        walBackendOf cfg env = some WALBackend.sqliteWAL ∧
          abortsEarly cfg env = false)
  ∧ (cfg.enableWAL = true → cfg.walEngine = "aof" → env.aofOk = true →
        walBackendOf cfg env = some WALBackend.aofWAL ∧
          abortsEarly cfg env = false)
  ∧ (cfg.enableWAL = true → cfg.walEngine ≠ "sqlite" → cfg.walEngine ≠ "aof" →
        walBackendOf cfg env = none ∧ Event.selfSignal ∈ mainTrace cfg env)
  ∧ (cfg.enableWAL = false → walBackendOf cfg env = some WALBackend.nullWAL) := by
  refine ⟨?_, ?_, ?_, ?_⟩
  · intro h1 h2 h3
    simp [walBackendOf, abortsEarly, createWAL, h1, h2, h3]
  · intro h1 h2 h3
    have hne : cfg.walEngine ≠ "sqlite" := by simp [h2]
    simp [walBackendOf, abortsEarly, createWAL, h1, h2, h3, hne]
  · intro h1 h2 h3
    have hc : createWAL cfg env = none := by simp [createWAL, h2, h3]
    have hb : walBackendOf cfg env = none := by simp [walBackendOf, h1, hc]
    have ha : abortsEarly cfg env = true := by simp [abortsEarly, hb]
    refine ⟨hb, ?_⟩
    simp [mainTrace, ha, walEvents, h1, hc]
  · intro h1
    simp [walBackendOf, h1]

/-- Witness for C2: concrete run `--enable-wal --wal-engine sqlite` with a
succeeding constructor gets the SQLite backend and proceeds. -/
theorem C2_wal_engine_selection_witness :
    walBackendOf cfgWalSqlite envAllOk = some WALBackend.sqliteWAL ∧
      abortsEarly cfgWalSqlite envAllOk = false :=
  (C2_wal_engine_selection cfgWalSqlite envAllOk).1 rfl rfl rfl

/-- C3 counterexample: with multithreading disabled (the default) and
`--num-shards 4`, `main` creates 1 shard, not the configured 4
(lines 240-248 gate the `num-shards` flag behind
`enable-multithreading`). -/
theorem C3_num_shards_ignored_when_single_threaded :
    0 < cfgShards4.numShards
  ∧ computeNumShards cfgShards4 envAllOk = 1
  ∧ computeNumShards cfgShards4 envAllOk ≠ cfgShards4.numShards := by decide

/-- C3 amended: only when `enable-multithreading` is true is the shard
count the configured `num-shards` (when positive) or `runtime.NumCPU()`
(when `-1`, indeed whenever non-positive); with multithreading disabled
the count is hard-wired to 1 regardless of `num-shards`. -/
theorem C3_shard_count (cfg : Config) (env : Env) :
    (cfg.enableMultiThreading = true → 0 < cfg.numShards →
        computeNumShards cfg env = cfg.numShards)
  ∧ (cfg.enableMultiThreading = true → cfg.numShards = -1 →
        computeNumShards cfg env = (env.numCPU : Int))
  ∧ (cfg.enableMultiThreading = false → computeNumShards cfg env = 1) := by
  refine ⟨?_, ?_, ?_⟩
  · intro h1 h2
    simp [computeNumShards, h1, h2]
  · intro h1 h2
    norm_num [computeNumShards, h1, h2]
  · intro h1
    simp [computeNumShards, h1]

/-- Witness for C3 (amended): on an 8-core machine, multithreading with
`--num-shards -1` yields 8 shards, and the default single-threaded mode
yields 1. -/
theorem C3_shard_count_witness :
    computeNumShards ⟨false, false, true, -1, false, false, false, false, "null"⟩
        envAllOk = (8 : Int)
  ∧ computeNumShards cfgDefault envAllOk = 1 :=
  ⟨(C3_shard_count ⟨false, false, true, -1, false, false, false, false, "null"⟩
      envAllOk).2.1 rfl rfl,
   (C3_shard_count cfgDefault envAllOk).2.2 rfl⟩

/-- C5: `NewShardManager` receives `uint8(numShards)` (line 257), i.e. the
computed count reduced modulo 256; hence whenever `num-shards` ≥ 256 the
manager is handed fewer shards than configured, and a computed count of
exactly 256 is handed over as 0 shards. -/
theorem C5_uint8_shard_truncation (cfg : Config) (env : Env) :
    shardManagerArg cfg env = ((computeNumShards cfg env) % 256).toNat
  ∧ ((256 : Int) ≤ cfg.numShards →
      (shardManagerArg cfg env : Int) < cfg.numShards)
  ∧ (computeNumShards cfg env = 256 → shardManagerArg cfg env = 0) := by
  refine ⟨rfl, ?_, ?_⟩
  · intro h
    unfold shardManagerArg goUint8 computeNumShards
    cases hmt : cfg.enableMultiThreading
    · simp only [Bool.false_eq_true, if_false]
      norm_num
      omega
    · have hpos : cfg.numShards > 0 := by omega
      simp only [if_true, hpos]
      rw [Int.toNat_of_nonneg (Int.emod_nonneg _ (by norm_num))]
      calc cfg.numShards % 256 < 256 := Int.emod_lt_of_pos _ (by norm_num)
        _ ≤ cfg.numShards := h
  · intro h
    simp [shardManagerArg, goUint8, h]

/-- Witness for C5: `--enable-multithreading --num-shards 256` really
constructs the manager with 0 shards. -/
theorem C5_uint8_shard_truncation_witness :
    ((shardManagerArg cfgShards256 envAllOk : Int) < cfgShards256.numShards)
  ∧ shardManagerArg cfgShards256 envAllOk = 0 :=
  ⟨(C5_uint8_shard_truncation cfgShards256 envAllOk).2.1 (by decide),
   (C5_uint8_shard_truncation cfgShards256 envAllOk).2.2 (by decide)⟩

/-- Decomposition of trace membership into the phases of `main`. -/
lemma mem_mainTrace_elim (cfg : Config) (env : Env) (e : Event)
    (h : e ∈ mainTrace cfg env) :
    e ∈ walEvents cfg env ∨ e ∈ serverSetup cfg env ∨
      e = Event.shardManagerCreated (shardManagerArg cfg env) ∨
      e = Event.serversTerminated ∨ e = Event.errChDrained ∨
      e = Event.walShutdownBG ∨ e = Event.exited 0 := by
  unfold mainTrace at h
  split at h
  · simp only [List.mem_append, List.mem_singleton] at h
    tauto
  · simp only [List.mem_append, List.mem_cons, List.mem_singleton] at h
    split_ifs at h <;> simp_all <;> tauto

/-- Events `serverStarted` never come from the WAL phase. -/
lemma serverStarted_not_mem_walEvents (cfg : Config) (env : Env)
    (s : ServerKind) : Event.serverStarted s ∉ walEvents cfg env := by
  intro hm
  rcases mem_walEvents_shape cfg env _ hm with ⟨b, hb⟩ | hb | hb | hb <;>
    simp_all

/-- Event `walShutdownBG` is emitted by neither the WAL phase nor the server
wiring. -/
lemma walShutdownBG_not_mem_phases (cfg : Config) (env : Env) :
    Event.walShutdownBG ∉ walEvents cfg env ∧
      Event.walShutdownBG ∉ serverSetup cfg env := by
  constructor <;> intro hm
  · rcases mem_walEvents_shape cfg env _ hm with ⟨b, hb⟩ | hb | hb | hb <;>
      simp_all
  · rcases mem_serverSetup_shape cfg env _ hm with ⟨s, hb⟩ | hb <;> simp_all

/-- Event `exited` is emitted by neither the WAL phase nor the server wiring. -/
lemma exited_not_mem_phases (cfg : Config) (env : Env) (c : Nat) :
    Event.exited c ∉ walEvents cfg env ∧
      Event.exited c ∉ serverSetup cfg env := by
  constructor <;> intro hm
  · rcases mem_walEvents_shape cfg env _ hm with ⟨b, hb⟩ | hb | hb | hb <;>
      simp_all
  · rcases mem_serverSetup_shape cfg env _ hm with ⟨s, hb⟩ | hb <;> simp_all

/-- On a non-aborting run, start-up reaches the server phase and the
trace has its full shape. -/
lemma mainTrace_of_not_aborts (cfg : Config) (env : Env)
    (h : abortsEarly cfg env = false) :
    mainTrace cfg env =
      walEvents cfg env ++
      [Event.shardManagerCreated (shardManagerArg cfg env)] ++
      serverSetup cfg env ++
      [Event.serversTerminated, Event.errChDrained] ++
      (if cfg.enableWAL then [Event.walShutdownBG] else []) ++
      [Event.exited 0] := by
  unfold mainTrace
  simp [h]

/-- C4: with `enable-wal` and `restore-wal` both set, on any run in which
some server front-end is started, the `ReplayWAL` call (line 224) has run
to completion — `main` is sequential — before that front-end is started:
an occurrence of `replayWAL` precedes every `serverStarted` occurrence in
the trace. -/
theorem C4_replay_completes_before_servers (cfg : Config) (env : Env)
    (s : ServerKind) (hw : cfg.enableWAL = true)
    (hr : cfg.restoreFromWAL = true)
    (hs : Event.serverStarted s ∈ mainTrace cfg env) :
    allAfter (mainTrace cfg env) Event.replayWAL (Event.serverStarted s) := by
  have hnw : Event.serverStarted s ∉ walEvents cfg env :=
    serverStarted_not_mem_walEvents cfg env s
  have hab : abortsEarly cfg env = false := by
    by_contra hab
    rw [Bool.not_eq_false] at hab
    unfold mainTrace at hs
    rw [if_pos hab] at hs
    simp only [List.mem_append, List.mem_singleton] at hs
    rcases hs with hs | hs
    · exact hnw hs
    · exact Event.noConfusion hs
  have hsome : (createWAL cfg env).isSome = true := by
    unfold abortsEarly walBackendOf at hab
    rw [hw] at hab
    simp only [if_true] at hab
    cases hc : createWAL cfg env <;> simp [hc] at hab ⊢
  have hreplay : Event.replayWAL ∈ walEvents cfg env :=
    (replay_mem_walEvents_iff cfg env).2 ⟨hw, hr, hsome⟩
  refine ⟨walEvents cfg env,
    [Event.shardManagerCreated (shardManagerArg cfg env)] ++
      serverSetup cfg env ++
      [Event.serversTerminated, Event.errChDrained] ++
      (if cfg.enableWAL then [Event.walShutdownBG] else []) ++
      [Event.exited 0],
    ?_, hreplay, hnw⟩
  rw [mainTrace_of_not_aborts cfg env hab]
  simp [List.append_assoc]

/-- Witness for C4: a concrete restoring run starting the async server. -/
theorem C4_replay_completes_before_servers_witness :
    allAfter
      (mainTrace ⟨false, false, false, -1, false, false, true, true, "aof"⟩
        envAllOk)
      Event.replayWAL (Event.serverStarted ServerKind.async) :=
  C4_replay_completes_before_servers
    ⟨false, false, false, -1, false, false, true, true, "aof"⟩
    envAllOk ServerKind.async rfl rfl (by decide)

/-- On a run that reaches the server phase, a front-end appears in the
trace exactly when the server wiring starts it. -/
lemma serverStarted_mem_mainTrace_iff (cfg : Config) (env : Env)
    (h : abortsEarly cfg env = false) (s : ServerKind) :
    Event.serverStarted s ∈ mainTrace cfg env ↔
      Event.serverStarted s ∈ serverSetup cfg env := by
  constructor
  · intro hm
    rcases mem_mainTrace_elim cfg env _ hm with h1 | h1 | h1 | h1 | h1 | h1 | h1
    · exact absurd h1 (serverStarted_not_mem_walEvents cfg env s)
    · exact h1
    all_goals simp_all
  · intro hm
    rw [mainTrace_of_not_aborts cfg env h]
    simp [hm]

/-- The server wiring starts the HTTP front-end exactly when `enable-http`
is set and multithreading is not (lines 293-297 are inside the
non-multithreading branch). -/
lemma http_mem_serverSetup_iff (cfg : Config) (env : Env) :
    Event.serverStarted ServerKind.http ∈ serverSetup cfg env ↔
      cfg.enableHTTP = true ∧ cfg.enableMultiThreading = false := by
  unfold serverSetup
  split_ifs <;> simp_all

/-- The server wiring starts the WebSocket front-end exactly when
`enable-websocket` is set (lines 300-304 sit outside the threading
branch). -/
lemma websocket_mem_serverSetup_iff (cfg : Config) (env : Env) :
    Event.serverStarted ServerKind.websocket ∈ serverSetup cfg env ↔
      cfg.enableWebsocket = true := by
  unfold serverSetup
  split_ifs <;> simp_all

/-- C6: on any run that reaches the server phase, the HTTP front-end is
started iff `enable-http` is set and `enable-multithreading` is not — the
flag is silently ignored under multithreading — while the WebSocket
front-end is started iff `enable-websocket` is set, in either threading
mode. -/
theorem C6_http_gated_by_threading (cfg : Config) (env : Env)
    (h : abortsEarly cfg env = false) :
    (Event.serverStarted ServerKind.http ∈ mainTrace cfg env ↔
       cfg.enableHTTP = true ∧ cfg.enableMultiThreading = false)
  ∧ (Event.serverStarted ServerKind.websocket ∈ mainTrace cfg env ↔
       cfg.enableWebsocket = true) := by
  constructor
  · rw [serverStarted_mem_mainTrace_iff cfg env h]
    exact http_mem_serverSetup_iff cfg env
  · rw [serverStarted_mem_mainTrace_iff cfg env h]
    exact websocket_mem_serverSetup_iff cfg env

/-- Witness for C6: `--enable-http --enable-multithreading` run — the
HTTP flag is set, yet no HTTP front-end appears in the trace. -/
theorem C6_http_gated_by_threading_witness :
    (Event.serverStarted ServerKind.http ∈
        mainTrace ⟨true, true, true, -1, false, false, false, false, "null"⟩
          envAllOk ↔
      (true = true ∧ true = false))
  ∧ (Event.serverStarted ServerKind.websocket ∈
        mainTrace ⟨true, true, true, -1, false, false, false, false, "null"⟩
          envAllOk ↔ true = true) :=
  C6_http_gated_by_threading
    ⟨true, true, true, -1, false, false, false, false, "null"⟩ envAllOk rfl

/-- C7: `ReplayWAL` runs only when `enable-wal` and `restore-wal` are
both set; and with `enable-wal` off, the backend stays the null WAL from
line 189, no other backend is ever constructed, and flipping `restore-wal`
changes nothing about the run. -/
theorem C7_replay_and_backend_gating (cfg : Config) (env : Env) :
    (Event.replayWAL ∈ mainTrace cfg env →
        cfg.enableWAL = true ∧ cfg.restoreFromWAL = true)
  ∧ (cfg.enableWAL = false →
        walBackendOf cfg env = some WALBackend.nullWAL
      ∧ (∀ b, Event.walCreated b ∉ mainTrace cfg env)
      ∧ mainTrace (setRestore cfg true) env =
          mainTrace (setRestore cfg false) env) := by
  constructor
  · intro hm
    rcases mem_mainTrace_elim cfg env _ hm with h1 | h1 | h1 | h1 | h1 | h1 | h1
    · have := (replay_mem_walEvents_iff cfg env).1 h1
      exact ⟨this.1, this.2.1⟩
    · rcases mem_serverSetup_shape cfg env _ h1 with ⟨s, hs⟩ | hs <;> simp_all
    all_goals simp_all
  · intro h1
    refine ⟨by simp [walBackendOf, h1], ?_, ?_⟩
    · intro b hm
      rcases mem_mainTrace_elim cfg env _ hm with h2 | h2 | h2 | h2 | h2 | h2 | h2
      · rcases mem_walEvents_shape cfg env _ h2 with ⟨b2, hb⟩ | hb | hb | hb
        all_goals
          have : walEvents cfg env = [] := by simp [walEvents, h1]
          simp_all
      · rcases mem_serverSetup_shape cfg env _ h2 with ⟨s, hs⟩ | hs <;> simp_all
      all_goals simp_all
    · simp [mainTrace, abortsEarly, walBackendOf, walEvents, createWAL,
        serverSetup, shardManagerArg, computeNumShards, goUint8, setRestore, h1]

/-- Witness for C7 at the all-defaults configuration. -/
theorem C7_replay_and_backend_gating_witness :
    walBackendOf cfgDefault envAllOk = some WALBackend.nullWAL
  ∧ (∀ b, Event.walCreated b ∉ mainTrace cfgDefault envAllOk)
  ∧ mainTrace (setRestore cfgDefault true) envAllOk =
      mainTrace (setRestore cfgDefault false) envAllOk :=
  (C7_replay_and_backend_gating cfgDefault envAllOk).2 rfl

/-- C8: SIGTERM and SIGINT are exactly the signals `signal.Notify`
delivers into `sigs` (line 179); on receipt the watcher goroutine cancels
the single line-175 context; and every long-lived task — the shard
manager and each server goroutine — was handed that same context, so the
cancellation reaches them all. -/
theorem C8_single_ctx_cancelled_on_signal (cfg : Config) (env : Env)
    (s : Sig) (_hs : s ∈ notifiedSignals) :
    cancelCtxOnSignal s = some processCtx
  ∧ (∀ t c, (t, c) ∈ spawnedTasks cfg env → c = processCtx) := by
  refine ⟨rfl, ?_⟩
  intro t c hm
  unfold spawnedTasks at hm
  split at hm
  · simp at hm
  · simp only [List.mem_cons, List.mem_append] at hm
    split_ifs at hm <;> aesop

/-- Witness for C8: SIGTERM on a default-configuration run. -/
theorem C8_single_ctx_cancelled_on_signal_witness :
    cancelCtxOnSignal Sig.sigterm = some processCtx
  ∧ (∀ t c, (t, c) ∈ spawnedTasks cfgDefault envAllOk → c = processCtx) :=
  C8_single_ctx_cancelled_on_signal cfgDefault envAllOk Sig.sigterm (by decide)

/-- C9: every fatal deep-initialization failure — a failing
`NewSQLiteWAL` or `NewAOFWAL`, an unsupported `wal-engine`, a failing
`startProfiling` under multithreading, a failing `FindPortAndBind`
without it — puts the self-sent `SIGKILL` value into the trace
(`sigs <- syscall.SIGKILL`; lines 196, 204, 210, 274, 287).  No abort
path returns an error value to the caller: `main` has no error result at
all, and in the WAL cases it simply `return`s afterwards, exiting 0. -/
theorem C9_deep_init_aborts_by_self_signal (cfg : Config) (env : Env) :
    (cfg.enableWAL = true → cfg.walEngine = "sqlite" → env.sqliteOk = false →
        Event.selfSignal ∈ mainTrace cfg env)
  ∧ (cfg.enableWAL = true → cfg.walEngine = "aof" → env.aofOk = false →
        Event.selfSignal ∈ mainTrace cfg env)
  ∧ (cfg.enableWAL = true → cfg.walEngine ≠ "sqlite" → cfg.walEngine ≠ "aof" →
        Event.selfSignal ∈ mainTrace cfg env)
  ∧ (abortsEarly cfg env = false → cfg.enableMultiThreading = true →
        cfg.enableProfiling = true → env.profilingOk = false →
        Event.selfSignal ∈ mainTrace cfg env)
  ∧ (abortsEarly cfg env = false → cfg.enableMultiThreading = false →
        env.bindOk = false →
        Event.selfSignal ∈ mainTrace cfg env)
  ∧ (cfg.enableWAL = true → createWAL cfg env = none →
        exitCodeOf (mainTrace cfg env) = some 0) := by
  have habort : ∀ hc : createWAL cfg env = none, cfg.enableWAL = true →
      mainTrace cfg env = [Event.selfSignal, Event.exited 0] := by
    intro hc h1
    have ha : abortsEarly cfg env = true := by
      simp [abortsEarly, walBackendOf, h1, hc]
    unfold mainTrace
    rw [if_pos ha]
    simp [walEvents, h1, hc]
  have hsrv : abortsEarly cfg env = false →
      Event.selfSignal ∈ serverSetup cfg env →
      Event.selfSignal ∈ mainTrace cfg env := by
    intro ha hm
    rw [mainTrace_of_not_aborts cfg env ha]
    simp [hm]
  refine ⟨?_, ?_, ?_, ?_, ?_, ?_⟩
  · intro h1 h2 h3
    rw [habort (by simp [createWAL, h2, h3]) h1]
    simp
  · intro h1 h2 h3
    have hne : cfg.walEngine ≠ "sqlite" := by simp [h2]
    rw [habort (by simp [createWAL, h2, h3, hne]) h1]
    simp
  · intro h1 h2 h3
    rw [habort (by simp [createWAL, h2, h3]) h1]
    simp
  · intro ha h1 h2 h3
    refine hsrv ha ?_
    unfold serverSetup
    simp [h1, h2, h3]
  · intro ha h1 h2
    refine hsrv ha ?_
    unfold serverSetup
    simp [h1, h2]
  · intro h1 hc
    rw [habort hc h1]
    simp [exitCodeOf]

/-- Witness for C9: the unsupported-engine abort on
`--enable-wal --wal-engine null`. -/
theorem C9_deep_init_aborts_by_self_signal_witness :
    Event.selfSignal ∈ mainTrace cfgWalNull envAllOk :=
  (C9_deep_init_aborts_by_self_signal cfgWalNull envAllOk).2.2.1 rfl
    (by decide) (by decide)

/-- C10: with `enable-wal` set, on every run reaching the server phase
`wal.ShutdownBG()` (line 329) appears in the trace, strictly after both
the termination of all server goroutines (`serverWg.Wait`, line 314) and
the end of the `serverErrCh` drain loop (lines 318-324), and strictly
before the process exit — `main` is sequential, so the statement order of
lines 313-335 is the execution order. -/
theorem C10_wal_shutdown_after_servers (cfg : Config) (env : Env)
    (h : abortsEarly cfg env = false) (hw : cfg.enableWAL = true) :
    Event.walShutdownBG ∈ mainTrace cfg env
  ∧ allAfter (mainTrace cfg env) Event.serversTerminated Event.walShutdownBG
  ∧ allAfter (mainTrace cfg env) Event.errChDrained Event.walShutdownBG
  ∧ allAfter (mainTrace cfg env) Event.walShutdownBG (Event.exited 0) := by
  have hshape := mainTrace_of_not_aborts cfg env h
  rw [hw] at hshape
  simp only [if_true] at hshape
  have hbg := walShutdownBG_not_mem_phases cfg env
  have hex := exited_not_mem_phases cfg env 0
  refine ⟨?_, ?_, ?_, ?_⟩
  · rw [hshape]
    simp
  · refine ⟨walEvents cfg env ++
      [Event.shardManagerCreated (shardManagerArg cfg env)] ++
      serverSetup cfg env ++ [Event.serversTerminated, Event.errChDrained],
      [Event.walShutdownBG] ++ [Event.exited 0], ?_, ?_, ?_⟩
    · rw [hshape]
      simp [List.append_assoc]
    · simp
    · simp [List.mem_append, hbg.1, hbg.2]
  · refine ⟨walEvents cfg env ++
      [Event.shardManagerCreated (shardManagerArg cfg env)] ++
      serverSetup cfg env ++ [Event.serversTerminated, Event.errChDrained],
      [Event.walShutdownBG] ++ [Event.exited 0], ?_, ?_, ?_⟩
    · rw [hshape]
      simp [List.append_assoc]
    · simp
    · simp [List.mem_append, hbg.1, hbg.2]
  · refine ⟨walEvents cfg env ++
      [Event.shardManagerCreated (shardManagerArg cfg env)] ++
      serverSetup cfg env ++
      [Event.serversTerminated, Event.errChDrained] ++ [Event.walShutdownBG],
      [Event.exited 0], ?_, ?_, ?_⟩
    · rw [hshape]
    · simp
    · simp [List.mem_append, hex.1, hex.2]

/-- Witness for C10: the WAL-enabled sqlite run with every call
succeeding. -/
theorem C10_wal_shutdown_after_servers_witness :
    Event.walShutdownBG ∈ mainTrace cfgWalSqlite envAllOk
  ∧ allAfter (mainTrace cfgWalSqlite envAllOk)
      Event.serversTerminated Event.walShutdownBG
  ∧ allAfter (mainTrace cfgWalSqlite envAllOk)
      Event.errChDrained Event.walShutdownBG
  ∧ allAfter (mainTrace cfgWalSqlite envAllOk)
      Event.walShutdownBG (Event.exited 0) :=
  C10_wal_shutdown_after_servers cfgWalSqlite envAllOk (by decide) rfl
